import Mathlib

/-!
Verification of the NaviAgent repository's specification against its source.

The repository ships a Next.js frontend (`src/frontend/...` plus the unnamed
parts, which are earlier/later revisions of the same pages) and documentation
for a Python multi-agent backend whose code is not part of the repository
snapshot.  The definitions below are shallow embeddings of the frontend
functions named by the claims, translated directly from the TypeScript
source; the two backend components that no source file contains (the phase
orchestrator's failure semantics and the budget validator) are modelled from
the specification text, as marked in their doc comments.
-/

set_option autoImplicit false

namespace NaviAgent

/-! ## JavaScript primitives used by the pages

`jsParseInt` models JavaScript `parseInt(s)` on the decimal inputs the pages
feed it: leading whitespace is skipped, an optional sign is read, then the
maximal run of leading decimal digits; if that run is empty the result is
`NaN`, modelled as `none`. -/

def isJsSpace (c : Char) : Bool :=
  c = ' ' ∨ c = '\t' ∨ c = '\n' ∨ c = '\r'

def trimChars (l : List Char) : List Char :=
  ((l.dropWhile isJsSpace).reverse.dropWhile isJsSpace).reverse

/-- JavaScript `String.prototype.trim`, on the character list of the string. -/
def jsTrim (s : String) : String :=
  String.mk (trimChars s.data)

def digitsToNat (l : List Char) : Nat :=
  l.foldl (fun a c => 10 * a + (c.toNat - 48)) 0

def jsParseInt (s : String) : Option Int :=
  let body : List Char → Int → Option Int := fun rest sign =>
    let digits := rest.takeWhile Char.isDigit
    if digits.isEmpty then none
    else some (sign * (digitsToNat digits : Int))
  match trimChars s.data with
  | '-' :: rest => body rest (-1)
  | '+' :: rest => body rest 1
  | l => body l 1

/-! ## Destination gallery (src/frontend/src/app/explore/page.tsx, lines 60-63)

`prevImg` and `nextImg` step the gallery index over `n` destinations:
`prevImg`: `prev === 0 ? n - 1 : prev - 1`;
`nextImg`: `prev === n - 1 ? 0 : prev + 1`. -/

def prevImg (n i : Nat) : Nat :=
  if i = 0 then n - 1 else i - 1

def nextImg (n i : Nat) : Nat :=
  if i = n - 1 then 0 else i + 1

/-! ## Translation lookup (src/frontend/src/contexts/LanguageContext.tsx, lines 192-194)

The source is `translations[language][key as keyof typeof translations.vi] || key`.
Member access on the translation table yields `undefined` for an absent key,
modelled as `none`; `x || key` yields `key` exactly when `x` is falsy, and the
only falsy string is `""`.  The component closes over the concrete
`translations` object; the table is passed here as an explicit argument of
the same shape (a per-language partial map from keys to strings). -/

inductive Language where
  | vi
  | en
  deriving DecidableEq, Repr

def t (translations : Language → String → Option String)
    (language : Language) (key : String) : String :=
  match translations language key with
  | none => key
  | some s => if s = "" then key else s

/-! ## Travel data collected by the intake chat (src/frontend/src/app/plan/page.tsx, lines 18-27)

The `TravelData` interface: every field is an optional string (`undefined`
modelled as `none`). -/

structure TravelData where
  destination : Option String := none
  departure_point : Option String := none
  departure_date : Option String := none
  trip_duration : Option String := none
  num_travelers : Option String := none
  budget : Option String := none
  travel_style : Option String := none
  customer_notes : Option String := none
  deriving DecidableEq, Repr

/-! ## Budget rendering (src/frontend/src/app/plan/page.tsx, lines 340-345)

`formatBudget` returns an em dash for a missing/empty budget, echoes the raw
string when `parseInt` yields `NaN`, and otherwise hands the parsed number to
`Intl.NumberFormat('vi-VN', \x7b style: 'currency', currency: 'VND' \x7d)`.
The `Intl` renderer is external; what matters to the specification is which
of the three renderings is produced, captured by this codomain: `vnd n` is a
canonical-currency (VND) rendering of the number `n`, carrying no flag of any
kind. -/

inductive BudgetRendering where
  | dash
  | raw (s : String)
  | vnd (n : Int)
  deriving DecidableEq, Repr

def formatBudget (budget : Option String) : BudgetRendering :=
  match budget with
  | none => .dash
  | some b =>
    if b = "" then .dash
    else
      match jsParseInt b with
      | none => .raw b
      | some n => .vnd n

/-! ## Request handed to the travel planner (src/frontend/src/app/plan/page.tsx, lines 384-393)

`jsParseFloat` models `parseFloat` on the decimal strings the page feeds it:
optional sign, leading digits, optional fractional digits; `NaN` is `none`. -/

def jsParseFloat (s : String) : Option ℚ :=
  let body : List Char → ℚ → Option ℚ := fun rest sign =>
    let intDigits := rest.takeWhile Char.isDigit
    let afterInt := rest.drop intDigits.length
    if intDigits.isEmpty then none
    else
      match afterInt with
      | '.' :: fracTail =>
        let fracDigits := fracTail.takeWhile Char.isDigit
        some (sign * ((digitsToNat intDigits : ℚ) +
          (digitsToNat fracDigits : ℚ) / ((10 : ℚ) ^ fracDigits.length)))
      | _ => some (sign * (digitsToNat intDigits : ℚ))
  match trimChars s.data with
  | '-' :: rest => body rest (-1)
  | '+' :: rest => body rest 1
  | l => body l 1

structure PlannerRequest where
  departure_point : Option String
  destination : Option String
  departure_date : Option String
  trip_duration : Option Int
  num_travelers : Option Int
  budget : Option ℚ
  travel_style : Option String
  customer_notes : String
  deriving DecidableEq, Repr

def plannerRequest (td : TravelData) : PlannerRequest :=
  { departure_point := td.departure_point
    destination := td.destination
    departure_date := td.departure_date
    trip_duration := jsParseInt (td.trip_duration.getD "1")
    num_travelers := jsParseInt (td.num_travelers.getD "1")
    budget := jsParseFloat (td.budget.getD "0")
    travel_style :=
      if td.travel_style = some "self-guided" then some "self_guided"
      else td.travel_style
    customer_notes := td.customer_notes.getD "" }

/-! ## Plan record persisted to the database (src/unnamed/part_002, lines 545-556)

`savePlanRequest` is the JSON object POSTed to the plans storage service.
A JSON value is a string, a number, `NaN` (what `parseInt` yields on an
unparseable string), `null`, or `undefined` (an absent optional field). -/

inductive JsonVal where
  | str (s : String)
  | num (n : Int)
  | nan
  | null
  | undef
  deriving DecidableEq, Repr

def optStr (s : Option String) : JsonVal :=
  match s with
  | some v => .str v
  | none => .undef

def intVal (s : String) : JsonVal :=
  match jsParseInt s with
  | some n => .num n
  | none => .nan

def savePlanRequest (td : TravelData) (formattedDate : Option String)
    (guidebookHtmlContent : Option String) : List (String × JsonVal) :=
  [("destination", optStr td.destination),
   ("departure", .str (td.departure_point.getD "")),
   ("start_date", optStr formattedDate),
   ("duration", intVal (td.trip_duration.getD "1")),
   ("number_of_travelers", intVal (td.num_travelers.getD "1")),
   ("budget", intVal (td.budget.getD "0")),
   ("travel_style", optStr td.travel_style),
   ("notes", .str (td.customer_notes.getD "")),
   ("guidebook", match guidebookHtmlContent with
                 | some h => .str h
                 | none => .null)]

/-! ## Reading a plan back (src/frontend/src/app/itinerary/[id]/page.tsx, lines 71-87)

`loadPlanDetail` transforms the database plan into the frontend
`travel_data` shape, mapping the storage field names back to the data-model
names. -/

structure DbPlan where
  id : String
  destination : JsonVal
  departure : JsonVal
  start_date : JsonVal
  duration : JsonVal
  number_of_travelers : JsonVal
  budget : JsonVal
  travel_style : JsonVal
  notes : JsonVal
  deriving DecidableEq, Repr

def loadPlanDetailTravelData (dbPlan : DbPlan) : List (String × JsonVal) :=
  [("destination", dbPlan.destination),
   ("departure_point", dbPlan.departure),
   ("departure_date", dbPlan.start_date),
   ("trip_duration", dbPlan.duration),
   ("num_travelers", dbPlan.number_of_travelers),
   ("budget", dbPlan.budget),
   ("travel_style", dbPlan.travel_style),
   ("customer_notes", dbPlan.notes)]

/-- The names an object's serialization exposes: `JSON.stringify` drops
fields whose value is `undefined` and keeps every other field. -/
def serializedKeys (record : List (String × JsonVal)) : List String :=
  (record.filter (fun kv => kv.2 ≠ JsonVal.undef)).map Prod.fst

/-! ## localStorage model and itinerary deletion
(src/unnamed/part_005, lines 439-448; src/frontend/src/app/itinerary/page.tsx, lines 100-150)

Storage is a key-value map; under `travel_plans_list` the pages keep the
serialized list of plan summaries, under `travel_plan_<id>` the serialized
plan detail.  An entry of the plans list is the object pushed by
`handleCreateItinerary` (src/frontend/src/app/plan/page.tsx, lines 462-470). -/

structure PlanEntry where
  id : String
  destination : Option String
  departure_date : Option String
  trip_duration : Option Int
  num_travelers : Option Int
  budget : Option Int
  created_at : String
  deriving DecidableEq, Repr

inductive StorageVal where
  | plansList (plans : List PlanEntry)
  | planDetail (payload : String)
  | other (payload : String)
  deriving DecidableEq, Repr

abbrev Storage := List (String × StorageVal)

def getItem : Storage → String → Option StorageVal
  | [], _ => none
  | kv :: rest, k => if kv.1 = k then some kv.2 else getItem rest k

def setItem : Storage → String → StorageVal → Storage
  | [], k, v => [(k, v)]
  | kv :: rest, k, v => if kv.1 = k then (k, v) :: rest else kv :: setItem rest k v

def removeItem : Storage → String → Storage
  | [], _ => []
  | kv :: rest, k => if kv.1 = k then removeItem rest k else kv :: removeItem rest k

/-- `handleDeleteItinerary` (src/unnamed/part_005, lines 439-448): after the
user confirms, the in-memory list is filtered by id, written back under
`travel_plans_list`, and the detail record `travel_plan_<id>` is removed.
(The revision in src/frontend/src/app/itinerary/page.tsx additionally issues
a DELETE to the external plans database — an external collaborator — and
then performs this same localStorage update unconditionally.) -/
def handleDeleteItinerary (confirmed : Bool) (itineraries : List PlanEntry)
    (store : Storage) (id : String) : List PlanEntry × Storage :=
  if confirmed then
    let updatedPlans := itineraries.filter (fun plan => plan.id ≠ id)
    let store1 := setItem store "travel_plans_list" (.plansList updatedPlans)
    let store2 := removeItem store1 ("travel_plan_" ++ id)
    (updatedPlans, store2)
  else
    (itineraries, store)

/-! ## Intake chat page state (src/frontend/src/app/plan/page.tsx)

The component state touched by `handleSendChat` and `handleNewChat`:
`sessionId`, `messages`, `travelData`, `isComplete`.  A message is a
`(role, content)` pair with the role a string (`"user"` / `"assistant"`). -/

structure Message where
  role : String
  content : String
  deriving DecidableEq, Repr

structure ChatState where
  sessionId : Option String
  messages : List Message
  travelData : TravelData
  isComplete : Bool
  deriving DecidableEq, Repr

/-- Response of the reception service's `/chat` endpoint as consumed by the
page: `message`, `travel_data`, `is_complete`. -/
structure ChatResponse where
  message : String
  travel_data : Option TravelData
  is_complete : Bool
  deriving DecidableEq, Repr

def signInPromptMsg : Message :=
  { role := "assistant", content := "Please sign in to start planning your trip." }

def chatErrorMsg : Message :=
  { role := "assistant", content := "Sorry, there was an error. Please try again." }

/-- `handleSendChat` (src/frontend/src/app/plan/page.tsx, lines 191-337).
Arguments beyond the state: the text in the input box, the `isLoading`
flag, the presence of a stored user token, and the outcomes of the two
collaborator calls — `startChat` is the `/start_chat` response
(`session_id`, greeting `message`; `none` when the request fails and the
surrounding `catch` runs) and `chatApi` the `/chat` response (`none` on
failure).  The function returns the new component state. -/
def handleSendChat (st : ChatState) (chatInput : String) (isLoading : Bool)
    (token : Option Unit) (startChat : Option (String × String))
    (chatApi : Option ChatResponse) : ChatState :=
  if jsTrim chatInput = "" then st
  else if isLoading then st
  else
    match token with
    | none => { st with messages := [signInPromptMsg] }
    | some _ =>
      let userMessage := jsTrim chatInput
      let st1 := { st with
        messages := st.messages ++ [({ role := "user", content := userMessage } : Message)] }
      match st.sessionId with
      | none =>
        match startChat with
        | none => { st1 with messages := st1.messages ++ [chatErrorMsg] }
        | some (newSessionId, greeting) =>
          let st2 := { st1 with
            sessionId := some newSessionId
            messages := st1.messages ++ [({ role := "assistant", content := greeting } : Message)] }
          match chatApi with
          | none => { st2 with messages := st2.messages ++ [chatErrorMsg] }
          | some data =>
            { st2 with
              messages := st2.messages ++ [({ role := "assistant", content := data.message } : Message)]
              travelData := data.travel_data.getD ({} : TravelData)
              isComplete := data.is_complete }
      | some _ =>
        match chatApi with
        | none => { st1 with messages := st1.messages ++ [chatErrorMsg] }
        | some data =>
          { st1 with
            messages := st1.messages ++ [({ role := "assistant", content := data.message } : Message)]
            travelData := data.travel_data.getD ({} : TravelData)
            isComplete := data.is_complete }

/-- Number of assistant turns in a transcript. -/
def assistantCount (messages : List Message) : Nat :=
  (messages.filter (fun m => m.role = "assistant")).length

/-- `handleNewChat` (src/frontend/src/app/plan/page.tsx, lines 150-187).
With no token it alerts and changes nothing.  Otherwise it POSTs
`/start_chat`; on success the state becomes the fresh session: `sessionId`
set, `messages` replaced by the single greeting, `travelData` emptied,
`isComplete` cleared; on failure the `catch` leaves the state unchanged.
It then re-reads the sessions list (`loadUserSessions`), a read-only GET:
the session store itself is returned untouched. -/
def handleNewChat (st : ChatState) (store : Storage) (token : Option Unit)
    (startChat : Option (String × String)) : ChatState × Storage :=
  match token with
  | none => (st, store)
  | some _ =>
    match startChat with
    | none => (st, store)
    | some (newSessionId, greeting) =>
      ({ sessionId := some newSessionId
         messages := [({ role := "assistant", content := greeting } : Message)]
         travelData := ({} : TravelData)
         isComplete := false }, store)

/-! ## Phase orchestrator — modelled from the spec

No source file of the snapshot contains the planning orchestrator (the
repository ships only the frontend and the backend's documentation), so the
failure semantics are modelled from spec sections 4.2, 5 and 7. -/

/-- Modelled from the spec: classification of one specialist-step invocation
(spec section 7) — success with a structured output, a transient provider
error, a timeout (both retried once), or a validation failure (never
retried).  Step outputs are opaque structured records, modelled as strings. -/
inductive StepOutcome where
  | ok (output : String)
  | transientFail
  | timeout
  | validationFail
  deriving DecidableEq, Repr

/-- Modelled from the spec: "Each step call is retried once on a transient
failure classification before being treated as failed; retries are not
attempted on validation-type failures" (spec section 4.2).  `first` and
`second` are the outcomes of the original call and of the retry; the retry
is only consulted when the first outcome is transient (or a timeout, which
spec section 7 classifies as transient). -/
def runStepWithRetry (first second : StepOutcome) : Option String :=
  match first with
  | .ok output => some output
  | .validationFail => none
  | .transientFail | .timeout =>
    match second with
    | .ok output => some output
    | _ => none

/-- Modelled from the spec: a non-load-bearing step's contribution to the
plan — either its result or the explicit "unavailable" placeholder the
orchestrator substitutes (spec section 4.2, failure semantics). -/
inductive Contribution where
  | result (output : String)
  | unavailable
  deriving DecidableEq, Repr

def toContribution (r : Option String) : Contribution :=
  match r with
  | some output => .result output
  | none => .unavailable

/-- Modelled from the spec: the compiled `TravelPlan` fields the failure
semantics speak about — the Context output, the two Options contributions,
the Selection output and the three Analysis contributions. -/
structure PlanOutputs where
  context : String
  flight : Contribution
  accommodation : Contribution
  itinerary : String
  budget : Contribution
  advisory : Contribution
  souvenir : Contribution
  deriving DecidableEq, Repr

/-- Modelled from the spec: outcome of one planning run — success with a
compiled plan, or a reported planning failure naming the failing phase
(spec section 7). -/
inductive RunResult where
  | success (plan : PlanOutputs)
  | failure (phase : String)
  deriving DecidableEq, Repr

/-- Modelled from the spec: the five-phase orchestration (spec section 4.2).
Each step is given by its original-call and retry outcomes.  Context and
Selection are load-bearing: their failure aborts the run naming the phase.
Options (Logistics, Accommodation) and Analysis (Budget, Advisory, Souvenir)
steps that fail after their single retry are substituted by the
"unavailable" placeholder and the run still succeeds. -/
def orchestrate (ctx1 ctx2 lg1 lg2 ac1 ac2 sel1 sel2 bud1 bud2 adv1 adv2
    sov1 sov2 : StepOutcome) : RunResult :=
  match runStepWithRetry ctx1 ctx2 with
  | none => .failure "Context"
  | some contextOut =>
    let flight := toContribution (runStepWithRetry lg1 lg2)
    let accommodation := toContribution (runStepWithRetry ac1 ac2)
    match runStepWithRetry sel1 sel2 with
    | none => .failure "Selection"
    | some itineraryOut =>
      .success
        { context := contextOut
          flight := flight
          accommodation := accommodation
          itinerary := itineraryOut
          budget := toContribution (runStepWithRetry bud1 bud2)
          advisory := toContribution (runStepWithRetry adv1 adv2)
          souvenir := toContribution (runStepWithRetry sov1 sov2) }

/-! ## Budget validator — modelled from the spec

No source file of the snapshot contains the budget validator either; it is
modelled from spec section 4.4. -/

/-- Modelled from the spec: a budget category — name, amount in the
canonical currency, percentage of total (spec section 3). -/
structure BudgetCategory where
  name : String
  amount : ℚ
  percentage : ℚ
  deriving DecidableEq, Repr

inductive BudgetStatus where
  | withinBudget
  | overBudget
  | warning
  deriving DecidableEq, Repr

/-- Modelled from the spec: a `BudgetReport` — list of categories, total,
status, list of recommendations (spec section 3). -/
structure BudgetReport where
  categories : List BudgetCategory
  total : ℚ
  status : BudgetStatus
  recommendations : List String
  deriving DecidableEq, Repr

/-- Amount of the first category carrying the given name, `0` when absent. -/
def categoryCost (report : BudgetReport) (name : String) : ℚ :=
  match report.categories.find? (fun c => c.name = name) with
  | some c => c.amount
  | none => 0

def sumCategories (report : BudgetReport) : ℚ :=
  (report.categories.map (fun c => c.amount)).sum

def flightRecommendation : String :=
  "flight cost reaches 40% of the total budget - consider cheaper flights"

def accommodationRecommendation : String :=
  "accommodation cost reaches 30% of the total budget - consider cheaper accommodation"

/-- Modelled from the spec: the Budget Validator (spec section 4.4) — a pure
function over a `BudgetReport` draft and the original `TravelRequest.budget`
that applies the fixed ratio ceilings (flight cost < 40% of budget,
accommodation cost < 30% of budget) and the absolute ceiling (sum of
categories ≤ budget, else `status = over-budget`).  Violated ratio ceilings
append a human-readable recommendation naming the offending category;
prices are never mutated.  When only a ratio ceiling is violated the status
becomes `warning`; when nothing is violated the draft status is kept.
`ratioRecommendations` is the list of recommendations the ratio ceilings
contribute; `validateBudget` is the validator itself. -/
def ratioRecommendations (draft : BudgetReport) (budget : ℚ) : List String :=
  (if categoryCost draft "flight" ≥ 2 / 5 * budget then [flightRecommendation] else []) ++
  (if categoryCost draft "accommodation" ≥ 3 / 10 * budget
   then [accommodationRecommendation] else [])

def validateBudget (draft : BudgetReport) (budget : ℚ) : BudgetReport :=
  let status :=
    if sumCategories draft > budget then BudgetStatus.overBudget
    else if ratioRecommendations draft budget ≠ [] then BudgetStatus.warning
    else draft.status
  { draft with
    status := status
    recommendations := draft.recommendations ++ ratioRecommendations draft budget }

/-! ## Helper lemmas -/

theorem getItem_setItem_self (st : Storage) (k : String) (v : StorageVal) :
    getItem (setItem st k v) k = some v := by
  induction st with
  | nil => simp [setItem, getItem]
  | cons kv rest ih =>
    by_cases h : kv.1 = k
    · simp [setItem, getItem, h]
    · simp [setItem, getItem, h, ih]

theorem getItem_setItem_other (st : Storage) (k : String) (v : StorageVal)
    (k' : String) (h : k' ≠ k) :
    getItem (setItem st k v) k' = getItem st k' := by
  induction st with
  | nil => simp [setItem, getItem, h, Ne.symm h]
  | cons kv rest ih =>
    by_cases hk : kv.1 = k
    · subst hk
      simp [setItem, getItem, Ne.symm h]
    · by_cases hk' : kv.1 = k'
      · simp [setItem, getItem, hk, hk', h, Ne.symm h]
      · simp [setItem, getItem, hk, hk', ih]

theorem getItem_removeItem_self (st : Storage) (k : String) :
    getItem (removeItem st k) k = none := by
  induction st with
  | nil => simp [removeItem, getItem]
  | cons kv rest ih =>
    by_cases h : kv.1 = k
    · simp [removeItem, h, ih]
    · simp [removeItem, getItem, h, ih]

theorem getItem_removeItem_other (st : Storage) (k k' : String) (h : k' ≠ k) :
    getItem (removeItem st k) k' = getItem st k' := by
  induction st with
  | nil => simp [removeItem, getItem]
  | cons kv rest ih =>
    by_cases hk : kv.1 = k
    · subst hk
      simp [removeItem, getItem, Ne.symm h, ih]
    · by_cases hk' : kv.1 = k'
      · simp [removeItem, getItem, hk, hk', h, Ne.symm h]
      · simp [removeItem, getItem, hk, hk', ih]

theorem assistantCount_append (l m : List Message) :
    assistantCount (l ++ m) = assistantCount l + assistantCount m := by
  simp [assistantCount, List.filter_append]

/-! ## Claim theorems -/

/-- Claim C10: for every destination-gallery state with `n ≥ 1` destinations
and current index in `[0, n-1]`, `nextImg` followed by `prevImg` (and
`prevImg` followed by `nextImg`) returns the gallery to the same index, and
each single step keeps the index within `[0, n-1]` by wrapping around at the
ends. -/
theorem gallery_nav_roundtrip (n i : Nat) (hn : 1 ≤ n) (hi : i < n) :
    nextImg n (prevImg n i) = i ∧ prevImg n (nextImg n i) = i ∧
    prevImg n i < n ∧ nextImg n i < n := by
  refine ⟨?_, ?_, ?_, ?_⟩ <;> simp only [nextImg, prevImg] <;> split_ifs <;>
    first | omega | simp_all

theorem gallery_nav_roundtrip_witness :
    1 ≤ 3 ∧ 0 < 3 ∧
    (nextImg 3 (prevImg 3 0) = 0 ∧ prevImg 3 (nextImg 3 0) = 0 ∧
     prevImg 3 0 < 3 ∧ nextImg 3 0 < 3) :=
  ⟨by decide, by decide, gallery_nav_roundtrip 3 0 (by decide) (by decide)⟩

/-- Claim C8: the translation lookup function `t` is total: for every key
string and every active language, if the key maps to a non-empty translation
in the table, `t` returns that translation; otherwise (key absent, or its
translation is the empty string) `t` returns the key string itself — it
never throws and never returns undefined (its codomain is `String`). -/
theorem translation_lookup_total (translations : Language → String → Option String)
    (language : Language) (key : String) :
    (∀ s : String, translations language key = some s → s ≠ "" →
      t translations language key = s) ∧
    (translations language key = none ∨ translations language key = some "" →
      t translations language key = key) := by
  constructor
  · intro s hs hne
    simp [t, hs, hne]
  · intro h
    rcases h with h | h <;> simp [t, h]

/-- A fragment of the concrete `translations` object of
src/frontend/src/contexts/LanguageContext.tsx, serving as the table the
witness evaluates `t` on. -/
def sampleTranslations : Language → String → Option String := fun lang key =>
  match lang, key with
  | .vi, "home" => some "Trang chủ"
  | .vi, "explore" => some "Khám phá"
  | .en, "home" => some "Home"
  | .en, "explore" => some "Explore"
  | _, _ => none

theorem translation_lookup_total_witness :
    (sampleTranslations Language.vi "home" = some "Trang chủ" ∧
     "Trang chủ" ≠ "" ∧
     t sampleTranslations Language.vi "home" = "Trang chủ") ∧
    (sampleTranslations Language.en "noSuchKey" = none ∧
     t sampleTranslations Language.en "noSuchKey" = "noSuchKey") :=
  ⟨⟨rfl, by decide,
    (translation_lookup_total sampleTranslations Language.vi "home").1
      "Trang chủ" rfl (by decide)⟩,
   ⟨rfl,
    (translation_lookup_total sampleTranslations Language.en "noSuchKey").2
      (Or.inl rfl)⟩⟩

/-- Claim C7 counterexample: `handleNewChat` on a session whose displayed
transcript holds two turns replaces that transcript by the single greeting of
the fresh session, so the reset does change the transcript shown to the
user, refuting the claim as stated. -/
theorem new_chat_replaces_transcript :
    (handleNewChat
      { sessionId := some "s1"
        messages := [{ role := "user", content := "hi" },
                     { role := "assistant", content := "hello" }]
        travelData := {}
        isComplete := true }
      [] (some ()) (some ("s2", "Xin chao"))).1.messages ≠
    [{ role := "user", content := "hi" },
     { role := "assistant", content := "hello" }] := by
  decide

/-- Claim C7 (amended): resetting via `handleNewChat` reinitializes the trip
request to empty (all fields missing and the completion flag cleared) and
replaces the displayed transcript with the new session's single greeting;
the prior conversation history is preserved only in the session store, which
the reset leaves untouched (it can be redisplayed by selecting the old
session from the sidebar). -/
theorem new_chat_resets_request_keeps_store (st : ChatState) (store : Storage)
    (newSessionId greeting : String) :
    (handleNewChat st store (some ()) (some (newSessionId, greeting))).1.travelData
        = ({} : TravelData) ∧
    (handleNewChat st store (some ()) (some (newSessionId, greeting))).1.isComplete
        = false ∧
    (handleNewChat st store (some ()) (some (newSessionId, greeting))).1.sessionId
        = some newSessionId ∧
    (handleNewChat st store (some ()) (some (newSessionId, greeting))).1.messages
        = [{ role := "assistant", content := greeting }] ∧
    (handleNewChat st store (some ()) (some (newSessionId, greeting))).2 = store :=
  ⟨rfl, rfl, rfl, rfl, rfl⟩

/-- Claim C4 counterexample: at the completed travel request of the page's
mock data, the record POSTed to the plans storage service does not use the
data-model field names — `departure_point`, `departure_date`,
`trip_duration`, `num_travelers` and `customer_notes` are all absent from
its serialized keys. -/
theorem save_plan_field_names_differ :
    "departure_point" ∉ serializedKeys (savePlanRequest
      { destination := some "Ho Chi Minh City, Vietnam"
        departure_point := some "Ha Noi, Vietnam"
        departure_date := some "2025-12-07"
        trip_duration := some "2"
        num_travelers := some "2"
        budget := some "100000000"
        travel_style := some "self-guided"
        customer_notes := some "an early taste of local food" }
      (some "2025-12-07") (some "<html></html>")) ∧
    "departure_date" ∉ serializedKeys (savePlanRequest
      { destination := some "Ho Chi Minh City, Vietnam"
        departure_point := some "Ha Noi, Vietnam"
        departure_date := some "2025-12-07"
        trip_duration := some "2"
        num_travelers := some "2"
        budget := some "100000000"
        travel_style := some "self-guided"
        customer_notes := some "an early taste of local food" }
      (some "2025-12-07") (some "<html></html>")) := by
  decide

/-- Claim C4 (amended): the record handed to the plans storage service uses
the storage field names `destination`, `departure`, `start_date`,
`duration`, `number_of_travelers`, `budget`, `travel_style`, `notes` (plus
`guidebook`) — renaming five of the §3 data-model names — and
`loadPlanDetail` maps them back to the §3 names (`destination`,
`departure_point`, `departure_date`, `trip_duration`, `num_travelers`,
`budget`, `travel_style`, `customer_notes`) when a plan is read back. -/
theorem save_plan_uses_storage_names (td : TravelData) (formattedDate : Option String)
    (guidebookHtmlContent : Option String) (dbPlan : DbPlan) :
    (savePlanRequest td formattedDate guidebookHtmlContent).map Prod.fst =
      ["destination", "departure", "start_date", "duration",
       "number_of_travelers", "budget", "travel_style", "notes", "guidebook"] ∧
    (loadPlanDetailTravelData dbPlan).map Prod.fst =
      ["destination", "departure_point", "departure_date", "trip_duration",
       "num_travelers", "budget", "travel_style", "customer_notes"] :=
  ⟨rfl, rfl⟩

/-- Claim C6 counterexample: a completed request whose `travel_style` is the
enumeration value `self-guided` is handed to the planning orchestrator with
`travel_style = "self_guided"`, not the unchanged enumeration value, refuting
the claim that the same value is handed onward. -/
theorem planner_style_renamed :
    (plannerRequest { travel_style := some "self-guided" }).travel_style
        = some "self_guided" ∧
    some "self_guided" ≠ some "self-guided" := by
  constructor
  · rfl
  · decide

/-- Claim C6 (amended): for a complete request, `travel_style` holds one of
the enumeration values `self-guided` or `tour`; `tour` is handed to the
planning orchestrator unchanged, while `self-guided` is renamed to
`self_guided` (hyphen replaced by underscore) on the way. -/
theorem planner_style_mapping (td : TravelData) :
    (td.travel_style = some "tour" →
      (plannerRequest td).travel_style = some "tour") ∧
    (td.travel_style = some "self-guided" →
      (plannerRequest td).travel_style = some "self_guided") := by
  constructor <;> intro h <;> simp [plannerRequest, h]

theorem planner_style_mapping_witness :
    (({ travel_style := some "tour" } : TravelData).travel_style = some "tour" ∧
     (plannerRequest { travel_style := some "tour" }).travel_style = some "tour") ∧
    (({ travel_style := some "self-guided" } : TravelData).travel_style
        = some "self-guided" ∧
     (plannerRequest { travel_style := some "self-guided" }).travel_style
        = some "self_guided") :=
  ⟨⟨rfl, (planner_style_mapping { travel_style := some "tour" }).1 rfl⟩,
   ⟨rfl, (planner_style_mapping { travel_style := some "self-guided" }).2 rfl⟩⟩

/-- Claim C9: for every confirmed deletion of a saved itinerary with
identifier `id`, the stored plans list afterwards equals the previous list
with exactly the entries whose id equals the deleted id removed — every
other entry is unchanged and in the same relative order — and only the
detail record keyed by that id is removed from storage (the list key itself
is overwritten with the filtered list; every other key is untouched).  The
hypothesis `hkey` records that the detail key of the deleted id is not the
list key itself, which holds for every id the pages generate. -/
theorem delete_itinerary_frame (itineraries : List PlanEntry) (store : Storage)
    (id : String) (hkey : "travel_plan_" ++ id ≠ "travel_plans_list") :
    ((handleDeleteItinerary true itineraries store id).1).Sublist itineraries ∧
    (∀ p : PlanEntry, p ∈ (handleDeleteItinerary true itineraries store id).1 ↔
      (p ∈ itineraries ∧ p.id ≠ id)) ∧
    (∀ p : PlanEntry, p.id ≠ id →
      ((handleDeleteItinerary true itineraries store id).1).count p
        = itineraries.count p) ∧
    getItem (handleDeleteItinerary true itineraries store id).2
        ("travel_plan_" ++ id) = none ∧
    (∀ k : String, k ≠ "travel_plan_" ++ id → k ≠ "travel_plans_list" →
      getItem (handleDeleteItinerary true itineraries store id).2 k
        = getItem store k) ∧
    getItem (handleDeleteItinerary true itineraries store id).2 "travel_plans_list"
        = some (.plansList (handleDeleteItinerary true itineraries store id).1) := by
  simp only [handleDeleteItinerary, if_true]
  refine ⟨List.filter_sublist itineraries, ?_, ?_, ?_, ?_, ?_⟩
  · intro p
    simp [List.mem_filter]
  · intro p hp
    exact List.count_filter (by simpa using hp)
  · exact getItem_removeItem_self _ _
  · intro k hk1 hk2
    rw [getItem_removeItem_other _ _ _ hk1, getItem_setItem_other _ _ _ _ hk2]
  · rw [getItem_removeItem_other _ _ _ (Ne.symm hkey), getItem_setItem_self]

def planEntryA : PlanEntry :=
  { id := "1", destination := some "Phu Quoc", departure_date := some "2025-11-02",
    trip_duration := some 3, num_travelers := some 2, budget := some 5000000,
    created_at := "2025-10-01" }

def planEntryB : PlanEntry :=
  { id := "2", destination := some "Sa Pa", departure_date := some "2026-01-10",
    trip_duration := some 4, num_travelers := some 1, budget := some 7000000,
    created_at := "2025-10-02" }

def demoStorage : Storage :=
  [("travel_plans_list", .plansList [planEntryA, planEntryB]),
   ("travel_plan_1", .planDetail "detailA"),
   ("travel_plan_2", .planDetail "detailB"),
   ("language", .other "vi")]

theorem delete_itinerary_frame_witness :
    ("travel_plan_" ++ "2" ≠ "travel_plans_list") ∧
    (planEntryA ∈ (handleDeleteItinerary true [planEntryA, planEntryB] demoStorage "2").1 ↔
      (planEntryA ∈ [planEntryA, planEntryB] ∧ planEntryA.id ≠ "2")) ∧
    getItem (handleDeleteItinerary true [planEntryA, planEntryB] demoStorage "2").2
        ("travel_plan_" ++ "2") = none ∧
    getItem (handleDeleteItinerary true [planEntryA, planEntryB] demoStorage "2").2
        "travel_plans_list"
      = some (.plansList (handleDeleteItinerary true [planEntryA, planEntryB] demoStorage "2").1) :=
  ⟨by decide,
   (delete_itinerary_frame [planEntryA, planEntryB] demoStorage "2" (by decide)).2.1
     planEntryA,
   (delete_itinerary_frame [planEntryA, planEntryB] demoStorage "2" (by decide)).2.2.2.1,
   (delete_itinerary_frame [planEntryA, planEntryB] demoStorage "2" (by decide)).2.2.2.2.2⟩

/-- Claim C3 counterexample: the budget string "1000 USD" carries a currency
indicator (`USD`) that `formatBudget` knows nothing about — no rate lookup is
available to it — yet `formatBudget` renders it as the canonical-currency
(VND) amount `1000`.  The rendering codomain carries no `unverified` flag at
all, so the amount is rendered as a canonical-currency amount without the
flag, refuting the claim. -/
theorem format_budget_unflagged_vnd :
    formatBudget (some "1000 USD") = BudgetRendering.vnd 1000 := by
  decide

/-- Claim C3 (amended): a priced amount whose currency indicator is absent
or unknown is rendered by `formatBudget` as a canonical-currency (VND)
amount, with no `unverified` flag, whenever its string begins with a
parseable integer; only when no leading integer parses is the raw string
echoed unchanged, and a missing amount renders as a dash. -/
theorem format_budget_amended (b : String) (n : Int) :
    (jsParseInt b = some n → formatBudget (some b) = .vnd n) ∧
    (jsParseInt b = none → b ≠ "" → formatBudget (some b) = .raw b) ∧
    formatBudget none = .dash := by
  refine ⟨?_, ?_, rfl⟩
  · intro h
    have hb : ¬ b = "" := by
      intro he
      subst he
      have hnone : jsParseInt "" = none := by decide
      rw [hnone] at h
      simp at h
    simp [formatBudget, hb, h]
  · intro h hb
    simp [formatBudget, hb, h]

theorem format_budget_amended_witness :
    (jsParseInt "1000 USD" = some 1000 ∧
     formatBudget (some "1000 USD") = .vnd 1000) ∧
    (jsParseInt "USD" = none ∧ "USD" ≠ "" ∧
     formatBudget (some "USD") = .raw "USD") :=
  ⟨⟨by decide, (format_budget_amended "1000 USD" 1000).1 (by decide)⟩,
   ⟨by decide, by decide,
    (format_budget_amended "USD" 0).2.1 (by decide) (by decide)⟩⟩

/-- The assistant content `handleSendChat` appends last: the `/chat` reply on
success, the error message when the call fails. -/
def replyOf (chatApi : Option ChatResponse) : String :=
  match chatApi with
  | none => chatErrorMsg.content
  | some data => data.message

/-- Claim C5 counterexample: a single user turn submitted while no session
exists yet makes `handleSendChat` create the session and append two
assistant turns — the session greeting and the reply — so the transcript
gains two assistant turns, not exactly one, refuting the claim. -/
theorem send_chat_two_assistant_turns :
    assistantCount (handleSendChat
      { sessionId := none, messages := [], travelData := {}, isComplete := false }
      "Toi muon di Da Nang" false (some ())
      (some ("s1", "Xin chao! Ban muon di dau?"))
      (some { message := "Ban di may ngay?", travel_data := none,
              is_complete := false })).messages = 2 ∧
    assistantCount ([] : List Message) = 0 := by
  constructor
  · decide
  · decide

/-- Claim C5 (amended): a user turn submitted to an existing intake session
(non-blank input, not while a request is in flight, signed in) appends
exactly one assistant turn — the reply on success, the error message on
failure — after the user's own turn; only the first turn of a conversation,
which creates the session, additionally receives the session greeting as a
second assistant turn. -/
theorem send_chat_appends_one_assistant (st : ChatState) (chatInput : String)
    (sid : String) (startChat : Option (String × String))
    (chatApi : Option ChatResponse)
    (hsid : st.sessionId = some sid) (hinput : jsTrim chatInput ≠ "") :
    (handleSendChat st chatInput false (some ()) startChat chatApi).messages =
      st.messages ++ [{ role := "user", content := jsTrim chatInput },
                      { role := "assistant", content := replyOf chatApi }] ∧
    assistantCount (handleSendChat st chatInput false (some ()) startChat chatApi).messages
      = assistantCount st.messages + 1 := by
  have hmsg : (handleSendChat st chatInput false (some ()) startChat chatApi).messages =
      st.messages ++ [{ role := "user", content := jsTrim chatInput },
                      { role := "assistant", content := replyOf chatApi }] := by
    cases chatApi with
    | none => simp [handleSendChat, hinput, hsid, replyOf, chatErrorMsg]
    | some data => simp [handleSendChat, hinput, hsid, replyOf]
  refine ⟨hmsg, ?_⟩
  rw [hmsg, assistantCount_append]
  simp [assistantCount]

theorem send_chat_appends_one_assistant_witness :
    (({ sessionId := some "s1",
        messages := [{ role := "assistant", content := "Xin chao" }],
        travelData := {}, isComplete := false } : ChatState).sessionId = some "s1" ∧
     jsTrim "Hue" ≠ "") ∧
    ((handleSendChat
        { sessionId := some "s1",
          messages := [{ role := "assistant", content := "Xin chao" }],
          travelData := {}, isComplete := false }
        "Hue" false (some ()) none
        (some { message := "May nguoi di?", travel_data := none,
                is_complete := false })).messages =
      [{ role := "assistant", content := "Xin chao" }] ++
        [{ role := "user", content := jsTrim "Hue" },
         { role := "assistant",
           content := replyOf (some { message := "May nguoi di?",
                                      travel_data := none,
                                      is_complete := false }) }] ∧
     assistantCount (handleSendChat
        { sessionId := some "s1",
          messages := [{ role := "assistant", content := "Xin chao" }],
          travelData := {}, isComplete := false }
        "Hue" false (some ()) none
        (some { message := "May nguoi di?", travel_data := none,
                is_complete := false })).messages =
      assistantCount [({ role := "assistant", content := "Xin chao" } : Message)] + 1) :=
  ⟨⟨rfl, by decide⟩,
   send_chat_appends_one_assistant
     { sessionId := some "s1",
       messages := [{ role := "assistant", content := "Xin chao" }],
       travelData := {}, isComplete := false }
     "Hue" "s1" none
     (some { message := "May nguoi di?", travel_data := none, is_complete := false })
     rfl (by decide)⟩

/-- Claim C1: for every planning run in which exactly one Options-phase step
fails or times out after its single retry, the sibling step's result still
appears in the final plan, the failed step's contribution is the explicit
"unavailable" placeholder, and the run completes with success status rather
than failing the whole plan.  The two conjuncts cover the failing step being
Accommodation or Logistics; `Context` and `Selection` succeeding expresses
that the failure is confined to the Options phase. -/
theorem options_failure_isolated (ctx1 ctx2 lg1 lg2 ac1 ac2 sel1 sel2 bud1 bud2
    adv1 adv2 sov1 sov2 : StepOutcome) (contextOut itineraryOut flightOut accOut : String)
    (hctx : runStepWithRetry ctx1 ctx2 = some contextOut)
    (hsel : runStepWithRetry sel1 sel2 = some itineraryOut) :
    (runStepWithRetry lg1 lg2 = some flightOut → runStepWithRetry ac1 ac2 = none →
      orchestrate ctx1 ctx2 lg1 lg2 ac1 ac2 sel1 sel2 bud1 bud2 adv1 adv2 sov1 sov2 =
        .success
          { context := contextOut
            flight := .result flightOut
            accommodation := .unavailable
            itinerary := itineraryOut
            budget := toContribution (runStepWithRetry bud1 bud2)
            advisory := toContribution (runStepWithRetry adv1 adv2)
            souvenir := toContribution (runStepWithRetry sov1 sov2) }) ∧
    (runStepWithRetry ac1 ac2 = some accOut → runStepWithRetry lg1 lg2 = none →
      orchestrate ctx1 ctx2 lg1 lg2 ac1 ac2 sel1 sel2 bud1 bud2 adv1 adv2 sov1 sov2 =
        .success
          { context := contextOut
            flight := .unavailable
            accommodation := .result accOut
            itinerary := itineraryOut
            budget := toContribution (runStepWithRetry bud1 bud2)
            advisory := toContribution (runStepWithRetry adv1 adv2)
            souvenir := toContribution (runStepWithRetry sov1 sov2) }) := by
  constructor
  · intro hlg hac
    simp [orchestrate, hctx, hsel, hlg, hac, toContribution]
  · intro hac hlg
    simp [orchestrate, hctx, hsel, hlg, hac, toContribution]

/-- Witness scenario from the spec (section 8): the Logistics step times out
twice (original call plus the single retry) while every other step succeeds;
the compiled plan carries the `unavailable` placeholder for the flight, the
populated accommodation result, and the run status is success. -/
theorem options_failure_isolated_witness :
    runStepWithRetry (.ok "ctx") (.ok "ctx") = some "ctx" ∧
    runStepWithRetry (.ok "sel") (.ok "sel") = some "sel" ∧
    runStepWithRetry (.ok "hotels") (.ok "hotels") = some "hotels" ∧
    runStepWithRetry .timeout .timeout = none ∧
    orchestrate (.ok "ctx") (.ok "ctx") .timeout .timeout (.ok "hotels") (.ok "hotels")
        (.ok "sel") (.ok "sel") (.ok "bud") (.ok "bud") (.ok "adv") (.ok "adv")
        (.ok "sov") (.ok "sov") =
      .success
        { context := "ctx"
          flight := .unavailable
          accommodation := .result "hotels"
          itinerary := "sel"
          budget := toContribution (runStepWithRetry (.ok "bud") (.ok "bud"))
          advisory := toContribution (runStepWithRetry (.ok "adv") (.ok "adv"))
          souvenir := toContribution (runStepWithRetry (.ok "sov") (.ok "sov")) } :=
  ⟨rfl, rfl, rfl, rfl,
   (options_failure_isolated (.ok "ctx") (.ok "ctx") .timeout .timeout
      (.ok "hotels") (.ok "hotels") (.ok "sel") (.ok "sel") (.ok "bud") (.ok "bud")
      (.ok "adv") (.ok "adv") (.ok "sov") (.ok "sov")
      "ctx" "sel" "flights" "hotels" rfl rfl).2 rfl rfl⟩

/-- Claim C2: for every `BudgetReport` draft and original positive budget,
the Budget Validator appends at least one recommendation string referencing
the offending category whenever `flight_cost ≥ 0.4 * budget` or
`accommodation_cost ≥ 0.3 * budget`, sets status to over-budget when the sum
of category amounts exceeds the budget, and never mutates any price in the
report — it only annotates status and recommendation text (categories and
total are returned unchanged, and the recommendation list is the draft's
list with the ratio recommendations appended). -/
theorem budget_validator_annotates (draft : BudgetReport) (budget : ℚ)
    (_hb : 0 < budget) :
    (categoryCost draft "flight" ≥ 2 / 5 * budget →
      flightRecommendation ∈ (validateBudget draft budget).recommendations) ∧
    (categoryCost draft "accommodation" ≥ 3 / 10 * budget →
      accommodationRecommendation ∈ (validateBudget draft budget).recommendations) ∧
    (sumCategories draft > budget →
      (validateBudget draft budget).status = BudgetStatus.overBudget) ∧
    (validateBudget draft budget).categories = draft.categories ∧
    (validateBudget draft budget).total = draft.total ∧
    (validateBudget draft budget).recommendations =
      draft.recommendations ++ ratioRecommendations draft budget := by
  refine ⟨?_, ?_, ?_, rfl, rfl, rfl⟩
  · intro hf
    simp [validateBudget, ratioRecommendations, hf]
  · intro ha
    simp [validateBudget, ratioRecommendations, ha]
  · intro hs
    simp [validateBudget, hs]

def demoDraft : BudgetReport :=
  { categories :=
      [{ name := "flight", amount := 500, percentage := 45 },
       { name := "accommodation", amount := 400, percentage := 36 },
       { name := "activities", amount := 200, percentage := 19 }],
    total := 1100, status := .withinBudget, recommendations := [] }

theorem budget_validator_annotates_witness :
    (0 : ℚ) < 1000 ∧
    categoryCost demoDraft "flight" ≥ 2 / 5 * 1000 ∧
    categoryCost demoDraft "accommodation" ≥ 3 / 10 * 1000 ∧
    sumCategories demoDraft > 1000 ∧
    flightRecommendation ∈ (validateBudget demoDraft 1000).recommendations ∧
    accommodationRecommendation ∈ (validateBudget demoDraft 1000).recommendations ∧
    (validateBudget demoDraft 1000).status = BudgetStatus.overBudget ∧
    (validateBudget demoDraft 1000).categories = demoDraft.categories :=
  ⟨by norm_num,
   by rw [show categoryCost demoDraft "flight" = 500 from rfl]; norm_num,
   by rw [show categoryCost demoDraft "accommodation" = 400 from rfl]; norm_num,
   by norm_num [sumCategories, demoDraft],
   (budget_validator_annotates demoDraft 1000 (by norm_num)).1
     (by rw [show categoryCost demoDraft "flight" = 500 from rfl]; norm_num),
   (budget_validator_annotates demoDraft 1000 (by norm_num)).2.1
     (by rw [show categoryCost demoDraft "accommodation" = 400 from rfl]; norm_num),
   (budget_validator_annotates demoDraft 1000 (by norm_num)).2.2.1
     (by norm_num [sumCategories, demoDraft]),
   (budget_validator_annotates demoDraft 1000 (by norm_num)).2.2.2.1⟩

end NaviAgent
